import Mathlib

/-!
Verification model of the SGCT Engine core (engine.h, screencapture.h).

The repository provides the two headers `include/sgct/engine.h` (here
`src/unnamed/part_000`) and `include/sgct/screencapture.h`.  The
implementation files (engine.cpp, screencapture.cpp) are not part of the
sources, so dynamic behaviour is modelled from the specification and the
documented contracts in those headers; declarations such as field types
(`unsigned int _frameCounter`, `static constexpr int HistoryLength = 128`)
are taken directly from the headers.
-/

/-- Width of the C++ `unsigned int` type used for `Engine::_frameCounter` and
`Engine::_shotCounter` (engine.h lines 617-618): 32 bits on all platforms
targeted by SGCT.  Unsigned arithmetic in C++ is defined modulo `2 ^ 32`. -/
def UINT32 : Nat := 2 ^ 32

/-! ## Frame counter (C1)

`engine.h` declares `unsigned int _frameCounter = 0;` (line 617) and
documents `currentFrameNumber` (lines 474-480) as "a monotonically
increasing number that will never be repeated". -/

/-- Modelled from the spec: the render loop (`Engine::exec`, whose
implementation file engine.cpp is not under src/) increments the frame
counter by exactly 1 on every loop iteration.  The counter itself is the
32-bit unsigned field `_frameCounter` initialised to 0 (engine.h line 617),
so the increment is performed modulo `2 ^ 32`.  `frameCounterAfter n` is the
value `currentFrameNumber` returns after `n` completed loop iterations. -/
def frameCounterAfter : Nat → Nat
  | 0 => 0
  | n + 1 => (frameCounterAfter n + 1) % UINT32

theorem frameCounterAfter_eq_mod (n : Nat) : frameCounterAfter n = n % UINT32 := by
  induction n with
  | zero => rfl
  | succ n ih =>
      have h1 : (1 : Nat) % UINT32 = 1 := by decide
      calc frameCounterAfter (n + 1) = (frameCounterAfter n + 1) % UINT32 := rfl
        _ = (n % UINT32 + 1 % UINT32) % UINT32 := by rw [ih, h1]
        _ = (n + 1) % UINT32 := (Nat.add_mod n 1 UINT32).symm

/-- Claim C1: the frame counter is claimed never to return the same value
twice over the whole process lifetime, but `_frameCounter` is a 32-bit
unsigned integer: after `2 ^ 32` render-loop iterations it wraps around and
returns the same value (0) that it returned before the first iteration. -/
theorem frameCounter_repeats_after_wrap :
    frameCounterAfter (2 ^ 32) = frameCounterAfter 0 := by
  rw [frameCounterAfter_eq_mod]
  show 2 ^ 32 % UINT32 = frameCounterAfter 0
  rw [UINT32, Nat.mod_self]
  rfl

/-! ## Statistics ring buffers (C2, C3)

`Engine::Statistics` (engine.h lines 68-113) holds five
`std::array<double, HistoryLength>` members with
`static constexpr int HistoryLength = 128` (line 77).  Its documentation:
"The newest value is always at the front of the different arrays, the
remaining values being sorted by the frame in which they occured.  These
values are only collected while the statistics are being shown." -/

/-- `Engine::Statistics::HistoryLength` (engine.h line 77): for how many
frames the history values are collected before the oldest are replaced. -/
def HistoryLength : Nat := 128

/-- Modelled from the spec: recording one per-frame sample into one of the
fixed-size `std::array<double, HistoryLength>` statistics buffers (the
rotation code lives in engine.cpp, which is not under src/).  The new value
is placed at the front, every other entry shifts back one slot, and the
entry in the last slot is discarded; the array length stays fixed. -/
def recordSample {α : Type} (v : α) (buf : List α) : List α :=
  (v :: buf).take HistoryLength

/-- Modelled from the spec: the per-frame statistics step of the render
loop.  Per the documentation of `Engine::Statistics` (engine.h lines 71-72),
"These values are only collected while the statistics are being shown", so
the recording is performed only when the statistics-visibility flag
(controlled by `Engine::setStatsGraphVisibility`) is on. -/
def statsStep {α : Type} (statsVisible : Bool) (sample : α) (stats : List α) : List α :=
  if statsVisible then recordSample sample stats else stats

/-- Modelled from the spec: the contents of one statistics buffer after `n`
frames have been processed with the statistics visible throughout, where
`s k` is the sample produced by frame `k`.  The buffer starts as the
zero-initialised `std::array` (`= {}` in engine.h lines 80-92), modelled by
`default`. -/
def statsAfter {α : Type} [Inhabited α] (s : Nat → α) : Nat → List α
  | 0 => List.replicate HistoryLength default
  | n + 1 => recordSample (s n) (statsAfter s n)

/-- Closed form of `statsAfter`: slot `i` holds the sample of frame
`n - 1 - i` when frame history reaches that far back, and the initial
default value otherwise. -/
def statsWindow {α : Type} [Inhabited α] (s : Nat → α) (n : Nat) : List α :=
  (List.range HistoryLength).map (fun i => if i < n then s (n - 1 - i) else default)

theorem statsAfter_eq_window {α : Type} [Inhabited α] (s : Nat → α) (n : Nat) :
    statsAfter s n = statsWindow s n := by
  induction n with
  | zero =>
      apply List.ext_getElem
      · simp [statsAfter, statsWindow]
      · intro i h1 h2
        simp [statsAfter, statsWindow]
  | succ n ih =>
      have hlen : (statsWindow s n).length = HistoryLength := by
        simp [statsWindow]
      apply List.ext_getElem
      · simp [statsAfter, recordSample, statsWindow, ih]
      · intro i h1 h2
        have hi : i < HistoryLength := by
          simpa [statsWindow] using h2
        simp only [statsAfter, ih]
        rcases i with _ | j
        · simp [recordSample, statsWindow, hi]
        · have hj : j < HistoryLength := Nat.lt_of_succ_lt hi
          have hjlen : j < (statsWindow s n).length := by rw [hlen]; exact hj
          have ht : (recordSample (s n) (statsWindow s n))[j + 1] =
              (statsWindow s n)[j] := by
            simp [recordSample, List.getElem_take]
          rw [ht]
          simp only [statsWindow, List.getElem_map, List.getElem_range]
          rcases Nat.lt_or_ge j n with hlt | hge
          · have h1 : j < n := hlt
            have h2 : j + 1 < n + 1 := Nat.succ_lt_succ hlt
            simp only [if_pos h1, if_pos h2]
            congr 1
            omega
          · have h1 : ¬ j < n := Nat.not_lt.mpr hge
            have h2 : ¬ j + 1 < n + 1 := by omega
            simp [h1, h2]

/-- Claim C3: each statistics ring buffer has fixed capacity 128; after at
least 128 recorded frames it holds exactly 128 entries, the newest sample is
at index 0 (slot `i` holds the sample of frame `n - 1 - i`), the oldest
surviving slot holds the sample from 128 frames back, and recording a new
sample pushes it to the front while evicting that oldest entry. -/
theorem statistics_ring_buffer {α : Type} [Inhabited α] (s : Nat → α) (n : Nat)
    (h : HistoryLength ≤ n) :
    (statsAfter s n).length = HistoryLength
    ∧ (∀ i, i < HistoryLength → (statsAfter s n).getD i default = s (n - 1 - i))
    ∧ (statsAfter s n).getD (HistoryLength - 1) default = s (n - HistoryLength)
    ∧ statsAfter s (n + 1) = s n :: (statsAfter s n).dropLast := by
  have hw := statsAfter_eq_window s n
  have hlen : (statsAfter s n).length = HistoryLength := by
    simp [hw, statsWindow]
  have hget : ∀ i, i < HistoryLength → (statsAfter s n).getD i default = s (n - 1 - i) := by
    intro i hi
    have hilen : i < (statsAfter s n).length := by rw [hlen]; exact hi
    rw [List.getD_eq_getElem _ _ hilen]
    have hin : i < n := lt_of_lt_of_le hi h
    simp only [hw, statsWindow, List.getElem_map, List.getElem_range, if_pos hin]
  refine ⟨hlen, hget, ?_, ?_⟩
  · have h127 := hget (HistoryLength - 1) (by decide)
    have harith : n - 1 - (HistoryLength - 1) = n - HistoryLength := by
      show n - 1 - 127 = n - 128
      omega
    rw [h127, harith]
  · show recordSample (s n) (statsAfter s n) = s n :: (statsAfter s n).dropLast
    rw [List.dropLast_eq_take, hlen, recordSample,
      show HistoryLength = (HistoryLength - 1) + 1 from rfl, List.take_succ_cons]
    norm_num

/-- Witness for `statistics_ring_buffer` at the concrete sample stream
`s k = k` and `n = 128`. -/
theorem statistics_ring_buffer_witness :
    (statsAfter (fun k => k) 128).length = 128
    ∧ (statsAfter (fun k => k) 128).getD 0 0 = 127
    ∧ (statsAfter (fun k => k) 128).getD 127 0 = 0
    ∧ statsAfter (fun k => k) 129 = 128 :: (statsAfter (fun k => k) 128).dropLast := by
  have h := statistics_ring_buffer (fun k => k) 128 (by decide)
  refine ⟨h.1, ?_, ?_, h.2.2.2⟩
  · simpa using h.2.1 0 (by decide)
  · simpa using h.2.1 127 (by decide)

/-- Counterexample to claim C2: with the statistics-visibility flag off, a
frame records nothing — the buffer is unchanged and the new sample (1) is
not at index 0 — contradicting the claim that samples are recorded on every
frame even while the flag is off. -/
theorem stats_hidden_not_recorded :
    statsStep false (1 : Int) (List.replicate HistoryLength 0) = List.replicate HistoryLength 0
    ∧ (statsStep false (1 : Int) (List.replicate HistoryLength 0)).getD 0 0 ≠ 1 := by
  exact ⟨rfl, by decide⟩

/-- Claim C2 (amended): per-frame samples are recorded into the statistics
buffers only while the statistics-visibility flag is on — a visible frame
performs the ring-buffer push (newest sample at index 0), a hidden frame
leaves the buffers untouched. -/
theorem stats_recording_gated_by_visibility {α : Type} (v : α) (stats : List α) :
    statsStep true v stats = recordSample v stats
    ∧ (statsStep true v stats).head? = some v
    ∧ statsStep false v stats = stats := by
  refine ⟨rfl, ?_, rfl⟩
  show (recordSample v stats).head? = some v
  rw [recordSample, show HistoryLength = (HistoryLength - 1) + 1 from rfl,
    List.take_succ_cons, List.head?_cons]

/-! ## Render loop and termination (C4)

`Engine::terminate` (engine.h lines 288-292): "Signals to SGCT that the
application should be terminated at the end of the next frame."  The flag is
the field `bool _shouldTerminate` (engine.h line 607, "Whether SGCT should
terminate in the next frame").  The loop body itself (`Engine::exec`) is not
under src/ and is modelled from the spec, section 4.1. -/

/-- Modelled from the spec: the per-frame phases of the FrameSequencer
state machine (spec section 4.1), plus the `top` state that marks the
iteration boundary of the render loop where the termination flag is read. -/
inductive Phase where
  | top
  | preSync
  | networkSyncPre
  | postSyncPreDraw
  | draw
  | draw2D
  | networkSyncPost
  | postDraw
deriving DecidableEq

/-- Modelled from the spec: the state of one node's render loop — the
current phase, the 32-bit frame counter, the `_shouldTerminate` flag
(engine.h line 607) and whether the loop has exited. -/
structure LoopState where
  phase : Phase
  frame : Nat
  shouldTerminate : Bool
  terminated : Bool
deriving DecidableEq

/-- Modelled from the spec: `Engine::terminate` (engine.h lines 288-292)
sets the `_shouldTerminate` flag; it may be called from any thread at any
point, modelled by applying it between two steps of the loop. -/
def terminateEngine (s : LoopState) : LoopState :=
  { s with shouldTerminate := true }

/-- Modelled from the spec: one step of the render loop (`Engine::exec`,
engine.cpp not under src/; spec section 4.1).  The termination flag is read
only at the top of the loop; every phase of a frame in progress
unconditionally advances to the next phase, and the frame counter is
incremented (modulo `2 ^ 32`) when the frame completes at `postDraw`. -/
def step (s : LoopState) : LoopState :=
  if s.terminated then s
  else
    match s.phase with
    | Phase.top =>
        if s.shouldTerminate then { s with terminated := true }
        else { s with phase := Phase.preSync }
    | Phase.preSync => { s with phase := Phase.networkSyncPre }
    | Phase.networkSyncPre => { s with phase := Phase.postSyncPreDraw }
    | Phase.postSyncPreDraw => { s with phase := Phase.draw }
    | Phase.draw => { s with phase := Phase.draw2D }
    | Phase.draw2D => { s with phase := Phase.networkSyncPost }
    | Phase.networkSyncPost => { s with phase := Phase.postDraw }
    | Phase.postDraw => { s with phase := Phase.top, frame := (s.frame + 1) % UINT32 }

/-- Number of loop steps from a given phase back to the `top` boundary. -/
def phasesRemaining : Phase → Nat
  | Phase.top => 0
  | Phase.preSync => 7
  | Phase.networkSyncPre => 6
  | Phase.postSyncPreDraw => 5
  | Phase.draw => 4
  | Phase.draw2D => 3
  | Phase.networkSyncPost => 2
  | Phase.postDraw => 1

/-- `iterateStep n s` runs `n` steps of the render loop from state `s`. -/
def iterateStep : Nat → LoopState → LoopState
  | 0, s => s
  | n + 1, s => iterateStep n (step s)

/-- Claim C4: a termination request raised while a frame is in progress
(any phase other than the loop boundary) takes effect only at the next
iteration boundary: the loop is never terminated during the remaining
phases, it reaches the boundary with the current frame fully completed
(frame counter advanced), and only the very next step — the read of the
flag at the top of the loop — shuts the loop down. -/
theorem terminate_takes_effect_at_boundary (s : LoopState)
    (hterm : s.terminated = false) (hphase : s.phase ≠ Phase.top) :
    (∀ j, j ≤ phasesRemaining s.phase →
        (iterateStep j (terminateEngine s)).terminated = false)
    ∧ (iterateStep (phasesRemaining s.phase) (terminateEngine s)).phase = Phase.top
    ∧ (iterateStep (phasesRemaining s.phase) (terminateEngine s)).frame
        = (s.frame + 1) % UINT32
    ∧ (step (iterateStep (phasesRemaining s.phase) (terminateEngine s))).terminated
        = true := by
  obtain ⟨ph, fr, flag, tm⟩ := s
  simp only at hterm hphase
  subst hterm
  cases ph
  case top => exact absurd rfl hphase
  all_goals
    refine ⟨?_, rfl, rfl, rfl⟩
  all_goals
    intro j hj
    simp only [phasesRemaining] at hj
    interval_cases j <;> rfl

/-- Witness for `terminate_takes_effect_at_boundary`: terminate is called
while frame 10 is in its `draw` phase; the loop still finishes the frame
(4 more steps, counter advances to 11) and exits only at the boundary. -/
theorem terminate_boundary_witness :
    (iterateStep 4 (terminateEngine ⟨Phase.draw, 10, false, false⟩)).phase = Phase.top
    ∧ (iterateStep 4 (terminateEngine ⟨Phase.draw, 10, false, false⟩)).frame = 11
    ∧ (iterateStep 2 (terminateEngine ⟨Phase.draw, 10, false, false⟩)).terminated = false
    ∧ (step (iterateStep 4 (terminateEngine ⟨Phase.draw, 10, false, false⟩))).terminated
        = true := by
  have h := terminate_takes_effect_at_boundary ⟨Phase.draw, 10, false, false⟩ rfl (by decide)
  exact ⟨h.2.1, by simpa [UINT32] using h.2.2.1, h.1 2 (by decide), h.2.2.2⟩

/-! ## Screenshot pipeline (C5, C6, C7)

`Engine::takeScreenshot` (engine.h lines 393-407): "If the vector is
empty, screenshots of all windows will be taken, otherwise only the Window
ids that appear in the vector will be used ... Each successive call of this
function will increment the counter."  The counter is the 32-bit unsigned
field `_shotCounter` (engine.h line 618); the index limits are
`Settings::SS::limits` (lines 161-167): the first component is the index of
the first screenshot that will be rendered, the second the index of the
first that will not be rendered anymore. -/

/-- Modelled from the spec: the screenshot-relevant engine state — the
`_shotCounter` field and the list of files written so far, each identified
by the window id it captured and the shot index it was given. -/
structure CaptureState where
  shotCounter : Nat
  files : List (Nat × Nat)
deriving DecidableEq

/-- Modelled from the spec: the windows targeted by a `takeScreenshot`
call (engine.h lines 403-406): an empty id vector selects all currently
open windows, otherwise exactly the open windows whose id appears in the
vector (ids not referring to an open window are ignored). -/
def targetWindows (windowIds openWindows : List Nat) : List Nat :=
  if windowIds.isEmpty then openWindows
  else openWindows.filter (fun w => windowIds.contains w)

/-- Modelled from the spec: the screenshot limits check
(`Settings::SS::limits`, engine.h lines 161-167): with limits `(lo, hi)` a
shot index is written to disk only when `lo ≤ index < hi`; without limits
every index is written. -/
def limitsAllow (limits : Option (Nat × Nat)) (idx : Nat) : Bool :=
  match limits with
  | none => true
  | some l => decide (l.1 ≤ idx) && decide (idx < l.2)

/-- Modelled from the spec: one `Engine::takeScreenshot` call (the
implementation is in engine.cpp, not under src/).  The targeted windows are
read back; a file is written per targeted window only when the current shot
index passes the limits check; the shot counter advances by exactly one
(32-bit unsigned increment) per call, regardless of how many windows were
captured or whether the index was outside the limits. -/
def takeScreenshot (windowIds openWindows : List Nat) (limits : Option (Nat × Nat))
    (st : CaptureState) : CaptureState :=
  let targets := targetWindows windowIds openWindows
  let newFiles :=
    if limitsAllow limits st.shotCounter
    then targets.map (fun w => (w, st.shotCounter))
    else []
  { shotCounter := (st.shotCounter + 1) % UINT32, files := st.files ++ newFiles }

/-- `Engine::resetScreenshotNumber` (engine.h lines 409-412): resets the
screenshot number to 0. -/
def resetScreenshotNumber (st : CaptureState) : CaptureState :=
  { st with shotCounter := 0 }

/-- `Engine::setScreenshotNumber` (engine.h lines 414-420): sets the number
that the next screenshot will receive (stored in the 32-bit unsigned
`_shotCounter`). -/
def setScreenshotNumber (n : Nat) (st : CaptureState) : CaptureState :=
  { st with shotCounter := n % UINT32 }

/-- `Engine::screenShotNumber` (engine.h lines 422-428): returns the number
the next screenshot will receive upon the next call of `takeScreenshot`. -/
def screenShotNumber (st : CaptureState) : Nat :=
  st.shotCounter

/-- Claim C5: a `takeScreenshot` call with an empty id vector captures all
currently open windows, a call with a non-empty vector captures exactly the
listed (open) windows, and the shot counter advances by exactly 1 per call
— for every choice of id vector, open-window set and limits, i.e.
regardless of how many windows were captured or skipped. -/
theorem takeScreenshot_targets_and_counter (windowIds openWindows : List Nat)
    (limits : Option (Nat × Nat)) (st : CaptureState) :
    (windowIds = [] →
        (takeScreenshot windowIds openWindows none st).files
          = st.files ++ openWindows.map (fun w => (w, st.shotCounter)))
    ∧ (windowIds ≠ [] →
        (takeScreenshot windowIds openWindows none st).files
          = st.files ++ (openWindows.filter (fun w => windowIds.contains w)).map
              (fun w => (w, st.shotCounter)))
    ∧ (takeScreenshot windowIds openWindows limits st).shotCounter
        = (st.shotCounter + 1) % UINT32 := by
  refine ⟨?_, ?_, rfl⟩
  · intro hempty
    subst hempty
    simp [takeScreenshot, targetWindows, limitsAllow]
  · intro hne
    have hnotempty : windowIds.isEmpty = false := by
      cases windowIds
      · exact absurd rfl hne
      · rfl
    simp [takeScreenshot, targetWindows, limitsAllow, hnotempty]

/-- Witness for `takeScreenshot_targets_and_counter`: with open windows
1, 2 an empty id vector captures both, the vector `[2]` captures only
window 2, and a call always advances the counter by 1. -/
theorem takeScreenshot_targets_witness :
    (takeScreenshot [] [1, 2] none ⟨0, []⟩).files = [(1, 0), (2, 0)]
    ∧ (takeScreenshot [2] [1, 2] none ⟨5, []⟩).files = [(2, 5)]
    ∧ (takeScreenshot [] [1, 2, 3] (some (9, 10)) ⟨0, []⟩).shotCounter = 1 := by
  refine ⟨?_, ?_, ?_⟩
  · simpa using (takeScreenshot_targets_and_counter [] [1, 2] none ⟨0, []⟩).1 rfl
  · simpa using (takeScreenshot_targets_and_counter [2] [1, 2] none ⟨5, []⟩).2.1 (by decide)
  · simpa [UINT32] using
      (takeScreenshot_targets_and_counter [] [1, 2, 3] (some (9, 10)) ⟨0, []⟩).2.2

/-- Claim C6: with capture limits `[5, 8)` and at least one targeted
window, a `takeScreenshot` call at shot index 4 or 8 writes no file, a call
at shot index 5, 6 or 7 writes the files for all targeted windows, and in
every case the shot index still advances by exactly 1. -/
theorem screenshot_limits_window (windowIds openWindows : List Nat)
    (st : CaptureState) (h : targetWindows windowIds openWindows ≠ []) :
    ((st.shotCounter = 4 ∨ st.shotCounter = 8) →
        (takeScreenshot windowIds openWindows (some (5, 8)) st).files = st.files)
    ∧ ((st.shotCounter = 5 ∨ st.shotCounter = 6 ∨ st.shotCounter = 7) →
        (takeScreenshot windowIds openWindows (some (5, 8)) st).files
          = st.files ++ (targetWindows windowIds openWindows).map
              (fun w => (w, st.shotCounter))
          ∧ (takeScreenshot windowIds openWindows (some (5, 8)) st).files ≠ st.files)
    ∧ (takeScreenshot windowIds openWindows (some (5, 8)) st).shotCounter
        = (st.shotCounter + 1) % UINT32 := by
  refine ⟨?_, ?_, rfl⟩
  · rintro (hc | hc) <;>
      simp [takeScreenshot, limitsAllow, hc]
  · have hmap : (targetWindows windowIds openWindows).map
        (fun w => (w, st.shotCounter)) ≠ [] := by
      intro hmapnil
      exact h (List.map_eq_nil_iff.mp hmapnil)
    rintro (hc | hc | hc) <;>
      refine ⟨by simp [takeScreenshot, limitsAllow, hc], ?_⟩ <;>
      · intro heq
        have hfiles :
            (takeScreenshot windowIds openWindows (some (5, 8)) st).files
              = st.files ++ (targetWindows windowIds openWindows).map
                  (fun w => (w, st.shotCounter)) := by
          simp [takeScreenshot, limitsAllow, hc]
        rw [hfiles] at heq
        exact hmap (List.append_right_eq_self.mp heq)

/-- Witness for `screenshot_limits_window`: one open window (id 1), limits
`[5, 8)`: the calls at shot indices 4 and 8 write nothing, the call at shot
index 5 writes the file `(1, 5)`, and the call at index 4 still advances
the counter to 5. -/
theorem screenshot_limits_witness :
    (takeScreenshot [] [1] (some (5, 8)) ⟨4, []⟩).files = []
    ∧ (takeScreenshot [] [1] (some (5, 8)) ⟨8, []⟩).files = []
    ∧ (takeScreenshot [] [1] (some (5, 8)) ⟨5, []⟩).files = [(1, 5)]
    ∧ (takeScreenshot [] [1] (some (5, 8)) ⟨4, []⟩).shotCounter = 5 := by
  refine ⟨?_, ?_, ?_, ?_⟩
  · exact (screenshot_limits_window [] [1] ⟨4, []⟩ (by decide)).1 (Or.inl rfl)
  · exact (screenshot_limits_window [] [1] ⟨8, []⟩ (by decide)).1 (Or.inr rfl)
  · simpa using
      ((screenshot_limits_window [] [1] ⟨5, []⟩ (by decide)).2.1 (Or.inl rfl)).1
  · simpa [UINT32] using (screenshot_limits_window [] [1] ⟨4, []⟩ (by decide)).2.2

/-- Claim C7: after `resetScreenshotNumber` the next `takeScreenshot` call
uses shot index 0, after `setScreenshotNumber 7` the next call uses shot
index 7, and `screenShotNumber` returns exactly the index the next
screenshot will receive. -/
theorem screenshot_number_spec (windowIds openWindows : List Nat)
    (st : CaptureState) :
    screenShotNumber (resetScreenshotNumber st) = 0
    ∧ (takeScreenshot windowIds openWindows none (resetScreenshotNumber st)).files
        = st.files ++ (targetWindows windowIds openWindows).map (fun w => (w, 0))
    ∧ screenShotNumber (setScreenshotNumber 7 st) = 7
    ∧ (takeScreenshot windowIds openWindows none (setScreenshotNumber 7 st)).files
        = st.files ++ (targetWindows windowIds openWindows).map (fun w => (w, 7))
    ∧ (takeScreenshot windowIds openWindows none st).files
        = st.files ++ (targetWindows windowIds openWindows).map
            (fun w => (w, screenShotNumber st)) := by
  have h7 : (7 : Nat) % UINT32 = 7 := by decide
  refine ⟨rfl, ?_, ?_, ?_, ?_⟩
  · simp [takeScreenshot, resetScreenshotNumber, limitsAllow]
  · show (7 : Nat) % UINT32 = 7
    exact h7
  · simp [takeScreenshot, setScreenshotNumber, limitsAllow, h7]
  · simp [takeScreenshot, screenShotNumber, limitsAllow]

/-! ## Engine singleton lifecycle (C8, C10) and master role (C9)

`Engine::instance` (engine.h lines 250-261) documents: "throw
std::logic_error ... if this function is called before the Engine::create
function is called or after the Engine::destroy function was called".
`Engine::destroy` (lines 281-286): "If this function is called without a
valid singleton existing, it is a no-op."  `Engine::isMaster` (lines
465-472): "This function will also return `true` if the Node is not part
of a clustered environment." -/

/-- Modelled from the spec: the observable state owned by the singleton
`Engine` object (`static Engine* _instance`, engine.h line 505); only the
two counters matter for the claims considered here. -/
structure EngineSingleton where
  frameCounter : Nat
  shotCounter : Nat
deriving DecidableEq

/-- The error signal of a lifecycle misuse: `std::logic_error` with a
diagnostic message. -/
inductive SgctError where
  | logicError (message : String)
deriving DecidableEq

/-- The diagnostic carried by the `std::logic_error` raised on misuse. -/
def misuseMessage : String := "Engine singleton does not exist"

/-- Modelled from the spec: the global `static Engine* _instance`
(engine.h line 505) before `Engine::create` has been called — a null
pointer, i.e. no singleton. -/
def initialState : Option EngineSingleton := none

/-- Modelled from the spec: `Engine::instance` (engine.h lines 250-261,
implementation in engine.cpp not under src/): returns the singleton when it
exists and raises `std::logic_error` when called before `Engine::create`
or after `Engine::destroy`. -/
def instanceFn : Option EngineSingleton → Except SgctError EngineSingleton
  | some e => Except.ok e
  | none => Except.error (SgctError.logicError misuseMessage)

/-- Modelled from the spec: `Engine::create` (engine.h lines 263-279) may
only be called while no singleton exists and installs the new singleton
into the global `_instance` slot. -/
def createFn (e : EngineSingleton) : Option EngineSingleton :=
  some e

/-- Modelled from the spec: `Engine::destroy` (engine.h lines 281-286)
destroys the singleton when one exists and is a no-op otherwise; in both
cases it leaves the empty global state and never raises an error. -/
def destroyFn : Option EngineSingleton → Except SgctError (Option EngineSingleton) :=
  fun _ => Except.ok none

/-- Claim C8: operating the singleton outside its create/destroy lifecycle
fails fast with a distinct signal: `instance` on the pre-create global
state raises `std::logic_error`, `instance` on any post-destroy global
state raises `std::logic_error`; against that, `instance` right after
`create` succeeds. -/
theorem instance_lifecycle_error :
    instanceFn initialState = Except.error (SgctError.logicError misuseMessage)
    ∧ (∀ g g', destroyFn g = Except.ok g' →
        instanceFn g' = Except.error (SgctError.logicError misuseMessage))
    ∧ (∀ e, instanceFn (createFn e) = Except.ok e) := by
  refine ⟨rfl, ?_, fun e => rfl⟩
  intro g g' h
  have hg : (none : Option EngineSingleton) = g' := by
    simpa [destroyFn] using h
  rw [← hg]
  rfl

/-- Witness for `instance_lifecycle_error`: before any `create`, and after
destroying a live singleton, `instance` raises the `std::logic_error`
signal; after `create` it succeeds. -/
theorem instance_lifecycle_witness :
    instanceFn none = Except.error (SgctError.logicError misuseMessage)
    ∧ instanceFn (createFn ⟨3, 4⟩) = Except.ok ⟨3, 4⟩ := by
  have h := instance_lifecycle_error
  exact ⟨h.2.1 (some ⟨3, 4⟩) none rfl, h.2.2 ⟨3, 4⟩⟩

/-- Claim C10: `Engine::destroy` on the empty global state (no valid
singleton) is a no-op — the global state is unchanged and no error is
raised — in contrast to `Engine::instance`, which errors on that same
state. -/
theorem destroy_without_instance_noop :
    destroyFn none = Except.ok none
    ∧ (instanceFn none).isOk = false := by
  exact ⟨rfl, rfl⟩

/-- The role a node plays: the master of a cluster or a client of a
cluster.  A node outside any clustered environment has no role, modelled as
`none` below. -/
inductive NodeRole where
  | master
  | client
deriving DecidableEq

/-- Modelled from the spec: `Engine::isMaster` (engine.h lines 465-472,
implementation in engine.cpp not under src/): "Returns if this Node is the
master in a clustered environment.  This function will also return `true`
if the Node is not part of a clustered environment."  The argument is the
node's cluster membership: `none` when the node is not part of a cluster,
otherwise its role. -/
def isMaster : Option NodeRole → Bool
  | none => true
  | some NodeRole.master => true
  | some NodeRole.client => false

/-- Claim C9: `isMaster` returns true for the master of a cluster and for
a node outside any cluster; it returns false exactly for a client node
participating in a cluster. -/
theorem isMaster_spec :
    isMaster (some NodeRole.master) = true
    ∧ isMaster none = true
    ∧ (∀ m, isMaster m = false ↔ m = some NodeRole.client) := by
  refine ⟨rfl, rfl, ?_⟩
  intro m
  rcases m with _ | role
  · simp [isMaster]
  · cases role <;> simp [isMaster]
